import Mathlib

/-!
Shallow embedding of the pipeline core of the YotubeAbstract repository:
the transcript segment / chunking model (`app/utils/chunking.py`), the
export serializers (`app/utils/exports.py`), the task store transition
operation (`app/db/repositories.py`), the map-reduce summarization driver
(`app/services/llm.py`), the duration guard of the video fetcher
(`app/services/youtube.py`) and the four pipeline stages
(`app/worker/tasks.py`).

Python floats are modelled as exact rationals, machine ints as `Int`/`Nat`,
`None`-able values as `Option`, raised exceptions as `Except`, and the
database session as an explicit store function threaded through the
operations.  External engines (yt-dlp, Whisper, the OpenAI client, the
Telegram transport) are parameters of the functions that call them.
-/

/-- Dataclass `TranscriptSegment` from `app/utils/chunking.py` (dataclass with
`start`, `end`, `text`); the Python field `end` is a Lean keyword and is
rendered `end_`. -/
structure TranscriptSegment where
  start : ℚ
  end_ : ℚ
  text : String
deriving DecidableEq

instance : Inhabited TranscriptSegment :=
  ⟨⟨0, 0, ""⟩⟩

/-- The loop of `chunk_segments_by_minutes`: state is the accumulated
`chunks`, the `current` run and `chunk_start` (the start of the current
run's first segment), exactly as in the Python body. -/
def chunkLoop (max_seconds : ℚ) :
    List TranscriptSegment → List (List TranscriptSegment) →
    List TranscriptSegment → ℚ → List (List TranscriptSegment)
  | [], chunks, current, _ =>
      if current = [] then chunks else chunks ++ [current]
  | seg :: rest, chunks, current, chunk_start =>
      if current ≠ [] ∧ seg.end_ - chunk_start > max_seconds then
        chunkLoop max_seconds rest (chunks ++ [current]) [seg] seg.start
      else
        chunkLoop max_seconds rest chunks (current ++ [seg]) chunk_start

/-- Function `chunk_segments_by_minutes` from `app/utils/chunking.py`; the Python
default `minutes=10` is passed explicitly at each call site. -/
def chunk_segments_by_minutes (segments : List TranscriptSegment)
    (minutes : ℤ) : List (List TranscriptSegment) :=
  match segments with
  | [] => []
  | s :: _ => chunkLoop ((minutes * 60 : ℤ) : ℚ) segments [] [] s.start

/-- Python `str.strip()`: drop leading and trailing whitespace.  Defined
structurally over the character list so that concrete instances evaluate
inside the kernel. -/
def pyStrip (s : String) : String :=
  ⟨((s.data.dropWhile Char.isWhitespace).reverse.dropWhile
      Char.isWhitespace).reverse⟩

/-- Function `join_segment_text` from `app/utils/chunking.py`: strip each
segment's text, drop the ones that are empty after stripping, join the
rest with single spaces. -/
def join_segment_text (segments : List TranscriptSegment) : String :=
  String.intercalate " "
    ((segments.map (fun item => pyStrip item.text)).filter (fun t => t ≠ ""))

/-- Zero-pad to two digits, the Python format spec `{n:02d}` for `n ≥ 0`. -/
def pad2 (n : ℕ) : String :=
  if n < 10 then "0" ++ toString n else toString n

/-- Zero-pad to three digits, the Python format spec `{n:03d}` for `n ≥ 0`. -/
def pad3 (n : ℕ) : String :=
  if n < 10 then "00" ++ toString n
  else if n < 100 then "0" ++ toString n
  else toString n

/-- Function `_format_srt_ts` from `app/utils/exports.py`.  The float seconds value
is modelled as an exact rational; `int(delta.total_seconds() * 1000)` is
truncation toward zero, which on the clamped (non-negative) value is the
floor. -/
def _format_srt_ts (seconds : ℚ) : String :=
  let s : ℚ := if seconds < 0 then 0 else seconds
  let total_ms : ℕ := (⌊s * 1000⌋).toNat
  let hours := total_ms / 3600000
  let minutes := (total_ms % 3600000) / 60000
  let secs := (total_ms % 60000) / 1000
  let millis := total_ms % 1000
  pad2 hours ++ ":" ++ pad2 minutes ++ ":" ++ pad2 secs ++ "," ++ pad3 millis

/-- The loop of `build_srt`: `for idx, seg in enumerate(segments, start=1)`,
skipping segments whose stripped text is empty; `idx` advances on every
segment, skipped or not. -/
def srtLines : List TranscriptSegment → ℕ → List String
  | [], _ => []
  | seg :: rest, idx =>
      let text := pyStrip seg.text
      if text = "" then srtLines rest (idx + 1)
      else
        [toString idx,
         _format_srt_ts seg.start ++ " --> " ++ _format_srt_ts seg.end_,
         text, ""] ++ srtLines rest (idx + 1)

/-- Function `build_srt` from `app/utils/exports.py`. -/
def build_srt (segments : List TranscriptSegment) : String :=
  if segments = [] then ""
  else pyStrip (String.intercalate "\n" (srtLines segments 1)) ++ "\n"

/-- A persisted `Task` row (`app/db/models.py`), restricted to the fields
the repository's transition operation touches. -/
structure TaskRow where
  id : ℤ
  user_id : ℤ
  video_url : String
  status : String
  error : Option String
  language : Option String
  duration_sec : Option ℤ
deriving DecidableEq

/-- The task table, modelled as a partial map from primary key to row. -/
def Store : Type := ℤ → Option TaskRow

/-- Constant `TERMINAL_STATUSES` from `app/db/repositories.py`. -/
def TERMINAL_STATUSES : List String := ["completed", "failed"]

/-- Method `TaskRepository.set_status` from `app/db/repositories.py`: look the
task up (`None` when absent), silently return it unchanged when it is
terminal and the requested status is not, otherwise apply the new status
and every supplied (non-`None`) optional field, committing the updated
row.  Returns the Python return value together with the updated table. -/
def set_status (store : Store) (task_id : ℤ) (status : String)
    (error : Option String) (language : Option String)
    (duration_sec : Option ℤ) : Option TaskRow × Store :=
  match store task_id with
  | none => (none, store)
  | some task =>
      if task.status ∈ TERMINAL_STATUSES ∧ status ∉ TERMINAL_STATUSES then
        (some task, store)
      else
        let updated : TaskRow :=
          { task with
            status := status
            error := match error with
              | some e => some e
              | none => task.error
            language := match language with
              | some l => some l
              | none => task.language
            duration_sec := match duration_sec with
              | some d => some d
              | none => task.duration_sec }
        (some updated, fun i => if i = task_id then some updated else store i)

/-- Function `_ask_model` from `app/services/llm.py`, with the OpenAI client
abstracted as a function `ask` from prompt to raw response text; both SDK
branches end by stripping the response. -/
def _ask_model (ask : String → String) (prompt : String) : String :=
  pyStrip (ask prompt)

/-- The map prompt of `summarize_with_map_reduce` (`Chunk #{idx}` body). -/
def mapPrompt (idx : ℕ) (chunk_text : String) : String :=
  "Ты редактор технических конспектов. Сделай плотный конспект фрагмента: 6-10 содержательных пунктов, без воды и без общих фраз. Каждый пункт должен содержать смысл (что именно, зачем, последствия, пример). Обязательно сохраняй конкретику: сервисы, параметры, ограничения, риски, шаги, решения. Пиши строго на русском языке. Формат: маркдаун-список.\n\nChunk #" ++ toString idx ++ ":\n" ++ chunk_text

/-- The final-summary prompt of `summarize_with_map_reduce`. -/
def finalSummaryPrompt (merged : String) : String :=
  "Сделай финальное резюме по частичным конспектам (1-2 абзаца). Только ключевой смысл, без повторов и без вводных фраз. Пиши строго на русском языке.\n\n" ++ merged

/-- The outline prompt of `summarize_with_map_reduce`. -/
def outlinePrompt (merged : String) : String :=
  "Сделай структурированный конспект лекции по частичным конспектам. Это должен быть не план глав, а содержательный материал. Требования:\n1) Формат markdown.\n2) Заголовок: \x27# <Тема> - Краткий конспект\x27.\n3) Далее 5-9 разделов с названиями уровня \x27##\x27.\n4) В каждом разделе 3-6 буллетов с фактической сутью (не общие фразы).\n5) Включай: определения, зачем это нужно, практические шаги, риски/ошибки, ограничения, примеры.\n6) Избегай пустых формулировок типа \x27обсуждается\x27, \x27рассматривается\x27.\n7) Если есть сценарий/кейс (например TinyFlix), вынеси его в отдельный раздел с выводами.\n8) Язык строго русский.\n\n" ++ merged

/-- The map/reduce phase of `summarize_with_map_reduce`, after the chunk
list has been fixed: summarize each chunk with its 1-based index, join
the partial summaries with blank lines, then issue the two reduction
calls. -/
def mapReducePhase (ask : String → String)
    (chunks : List (List TranscriptSegment)) : String × String :=
  let partial_summaries :=
    (List.enumFrom 1 chunks).map
      (fun p => _ask_model ask (mapPrompt p.1 (join_segment_text p.2)))
  let merged := String.intercalate "\n\n" partial_summaries
  (_ask_model ask (finalSummaryPrompt merged),
   _ask_model ask (outlinePrompt merged))

/-- Function `summarize_with_map_reduce` from `app/services/llm.py`: blank
transcript short-circuits to the two placeholder strings; an empty chunk
list falls back to a single synthetic chunk wrapping the whole
transcript. -/
def summarize_with_map_reduce (ask : String → String) (transcript : String)
    (segments : List TranscriptSegment) : String × String :=
  if pyStrip transcript = "" then
    ("No speech detected.", "No lecture outline available.")
  else
    let chunks0 := chunk_segments_by_minutes segments 10
    let chunks := if chunks0 = [] then [[⟨0, 0, transcript⟩]] else chunks0
    mapReducePhase ask chunks

/-- The exceptions raised by stage code: the three classified rejection
kinds of `app/services/youtube.py`, the generic `RuntimeError` class that
Celery retries (`autoretry_for=(RuntimeError,)`), and the `ValueError`
raised for a missing task. -/
inductive StageError where
  | videoTooLong (msg : String)
  | youTubeForbidden (msg : String)
  | youTubeInfo (msg : String)
  | runtime (msg : String)
  | valueError (msg : String)
deriving DecidableEq

/-- The rejection classes caught by stage 1's `except` clause. -/
def StageError.isRejection : StageError → Bool
  | .videoTooLong _ => true
  | .youTubeForbidden _ => true
  | .youTubeInfo _ => true
  | _ => false

/-- The exception message, `str(exc)`. -/
def StageError.msg : StageError → String
  | .videoTooLong m => m
  | .youTubeForbidden m => m
  | .youTubeInfo m => m
  | .runtime m => m
  | .valueError m => m

/-- Function `download_audio` from `app/services/youtube.py`, reduced to its
control flow: the metadata fetch resolves to an optional duration
(`info.get("duration") or 0` turns a missing duration into `0`); a
duration above `settings.max_video_seconds = max_video_minutes * 60`
raises `VideoTooLongError` before any download attempt; otherwise the
attempt loop's outcome `attempts` (a local file path, or one of the
classified errors produced after the loop) decides the result, paired
with the metadata duration. -/
def download_audio (info_duration : Option ℤ) (max_video_minutes : ℤ)
    (attempts : Except StageError String) : Except StageError (String × ℤ) :=
  let duration := info_duration.getD 0
  if duration > max_video_minutes * 60 then
    .error (.videoTooLong ("Video is too long (" ++ toString (duration / 60) ++
      " min). Maximum allowed is " ++ toString max_video_minutes ++ " min."))
  else
    match attempts with
    | .ok path => .ok (path, duration)
    | .error e => .error e

/-- A value stored under a key of the stage payload dictionary
(`app/worker/tasks.py`): task ids and durations are ints, paths and
texts are strings, `skip` is a boolean, `segments` is the list of
segment dicts (round-tripped through `segment.__dict__` /
`TranscriptSegment(**item)`). -/
inductive PVal where
  | vint (n : ℤ)
  | vstr (s : String)
  | vbool (b : Bool)
  | vsegs (segs : List TranscriptSegment)
deriving DecidableEq

/-- The stage payload dictionary, as a partial map from key to value. -/
def Payload : Type := String → Option PVal

/-- A dict item assignment `payload[k] = v`. -/
def pset (p : Payload) (k : String) (v : PVal) : Payload :=
  fun k' => if k' = k then some v else p k'

/-- Python truthiness of `payload.get(k)` (`None` is falsy). -/
def truthy : Option PVal → Bool
  | none => false
  | some (.vint n) => n ≠ 0
  | some (.vstr s) => s ≠ ""
  | some (.vbool b) => b
  | some (.vsegs l) => l ≠ []

/-- Accessor for `int(payload["task_id"])` restricted to int payloads: `none` models
the raised `KeyError`/`TypeError` for a missing or non-int value. -/
def getTaskId (p : Payload) : Option ℤ :=
  match p "task_id" with
  | some (.vint n) => some n
  | _ => none

/-- Accessor for `payload.get(k, "")` on a string field. -/
def getStr (p : Payload) (k : String) : String :=
  match p k with
  | some (.vstr s) => s
  | _ => ""

/-- Accessor for `payload.get("segments", [])`. -/
def getSegs (p : Payload) : List TranscriptSegment :=
  match p "segments" with
  | some (.vsegs l) => l
  | _ => []

/-- The short-circuit payload `{"task_id": task_id, "skip": True}`. -/
def skipPayload (task_id : ℤ) : Payload :=
  fun k =>
    if k = "task_id" then some (.vint task_id)
    else if k = "skip" then some (.vbool true)
    else none

/-- Stage 1's success payload
`{"task_id": ..., "source_path": ..., "duration_sec": ...}`. -/
def stage1Payload (task_id : ℤ) (source_path : String)
    (duration_sec : ℤ) : Payload :=
  fun k =>
    if k = "task_id" then some (.vint task_id)
    else if k = "source_path" then some (.vstr source_path)
    else if k = "duration_sec" then some (.vint duration_sec)
    else none

/-- Stage 4's return payload `{"task_id": ..., "status": "completed"}`. -/
def finalPayload (task_id : ℤ) : Payload :=
  fun k =>
    if k = "task_id" then some (.vint task_id)
    else if k = "status" then some (.vstr "completed")
    else none

/-- Task `download_audio_task` from `app/worker/tasks.py` (stage 1).  The
yt-dlp collaborator is abstracted by `info_duration` (the resolved
metadata duration) and `attempts` (the download-loop outcome), the
duration limit by `max_video_minutes`.  Returns the stage outcome (a
raised exception propagates as `.error` and is what Celery's
`autoretry_for` retries; the three rejection classes are caught and end
in a normal `skip` return), the updated task table, and the Telegram
texts sent.  Filesystem effects (temp dir creation and cleanup) are out
of the model. -/
def download_audio_task (store : Store) (task_id : ℤ)
    (info_duration : Option ℤ) (max_video_minutes : ℤ)
    (attempts : Except StageError String) :
    Except StageError Payload × Store × List (ℤ × String) :=
  match store task_id with
  | none =>
      (.error (.valueError ("Task " ++ toString task_id ++ " not found")),
       store, [])
  | some task =>
      if task.status = "completed" then
        (.ok (skipPayload task_id), store, [])
      else
        let s1 := (set_status store task_id "downloading" none none none).2
        match s1 task_id with
        | none =>
            (.error (.valueError ("Task " ++ toString task_id ++ " not found")),
             s1, [])
        | some _ =>
            match download_audio info_duration max_video_minutes attempts with
            | .ok (source_path, duration) =>
                let s2 := (set_status s1 task_id "downloaded" none none
                  (some duration)).2
                (.ok (stage1Payload task_id source_path duration), s2, [])
            | .error e =>
                if e.isRejection then
                  let r := set_status s1 task_id "failed" (some e.msg) none none
                  let notes := match r.1 with
                    | some t =>
                        [(t.user_id,
                          "Task " ++ toString task_id ++ " rejected: " ++ e.msg)]
                    | none => []
                  (.ok (skipPayload task_id), r.2, notes)
                else
                  (.error e, s1, [])

/-- Task `transcribe_audio_task` from `app/worker/tasks.py` (stage 2).  The
speech engine is abstracted by its outputs `transcript_text`,
`detected_language` and `segments`; waveform conversion and progress
snapshots are I/O outside the model.  A `skip` payload is forwarded
unchanged. -/
def transcribe_audio_task (p : Payload) (store : Store)
    (transcript_text : String) (detected_language : String)
    (segments : List TranscriptSegment) :
    Except StageError (Payload × Store) :=
  match getTaskId p with
  | none => .error (.runtime "KeyError: task_id")
  | some task_id =>
      if truthy (p "skip") then .ok (p, store)
      else
        let s1 := (set_status store task_id "transcribing" none none none).2
        let p1 := pset p "transcript_text" (.vstr transcript_text)
        let p2 := pset p1 "language" (.vstr detected_language)
        let p3 := pset p2 "segments" (.vsegs segments)
        let s2 := (set_status s1 task_id "transcribed" none
          (some detected_language) none).2
        .ok (p3, s2)

/-- Task `summarize_transcript_task` from `app/worker/tasks.py` (stage 3),
with the OpenAI client abstracted as `ask`.  A `skip` payload is
forwarded unchanged. -/
def summarize_transcript_task (p : Payload) (store : Store)
    (ask : String → String) : Except StageError (Payload × Store) :=
  match getTaskId p with
  | none => .error (.runtime "KeyError: task_id")
  | some task_id =>
      if truthy (p "skip") then .ok (p, store)
      else
        let s1 := (set_status store task_id "summarizing" none none none).2
        let segments := getSegs p
        let so := summarize_with_map_reduce ask (getStr p "transcript_text")
          segments
        let p1 := pset p "summary" (.vstr so.1)
        let p2 := pset p1 "outline" (.vstr so.2)
        .ok (p2, s1)

/-- A persisted `Result` row (`app/db/models.py`). -/
structure ResultRow where
  task_id : ℤ
  transcript_text : String
  summary : String
  outline : String
  subtitles_srt : Option String
deriving DecidableEq

/-- The results table. -/
def RStore : Type := ℤ → Option ResultRow

/-- Method `TaskRepository.upsert_result` from `app/db/repositories.py`. -/
def upsert_result (results : RStore) (task_id : ℤ)
    (transcript_text summary outline : String)
    (subtitles_srt : Option String) : ResultRow × RStore :=
  let row : ResultRow :=
    ⟨task_id, transcript_text, summary, outline, subtitles_srt⟩
  (row, fun i => if i = task_id then some row else results i)

/-- Task `finalize_task` from `app/worker/tasks.py` (stage 4): upsert the
result (an empty subtitle string is stored as `NULL` via
`subtitles_srt or None`), transition to `completed` with `error=""`, and
return the fresh payload `{"task_id", "status"}`.  Telegram delivery and
temp-dir cleanup are I/O outside the model; a delivery fault is caught
in the source and does not change the returned value or the stores.  A
`skip` payload is forwarded unchanged. -/
def finalize_task (p : Payload) (store : Store) (results : RStore) :
    Except StageError (Payload × Store × RStore) :=
  match getTaskId p with
  | none => .error (.runtime "KeyError: task_id")
  | some task_id =>
      if truthy (p "skip") then .ok (p, store, results)
      else
        let transcript_text := getStr p "transcript_text"
        let summary := getStr p "summary"
        let outline := getStr p "outline"
        let segments := getSegs p
        let subtitles_srt := build_srt segments
        let r1 := (upsert_result results task_id transcript_text summary
          outline (if subtitles_srt = "" then none else some subtitles_srt)).2
        let s1 := (set_status store task_id "completed" (some "") none none).2
        .ok (finalPayload task_id, s1, r1)

/-- A run is within bound: every segment after the first ends no more
than `max` seconds after the run's first segment starts. -/
def chunkOk (max : ℚ) (c : List TranscriptSegment) : Prop :=
  ∀ s ∈ c.tail, s.end_ - c.headI.start ≤ max

/-- Two consecutive runs are separated because the second run's opening
segment would have pushed the first run past the bound. -/
def chunkBoundary (max : ℚ) (c₁ c₂ : List TranscriptSegment) : Prop :=
  c₂.headI.end_ - c₁.headI.start > max

lemma chunkLoop_join (max : ℚ) (segs : List TranscriptSegment) :
    ∀ (chunks : List (List TranscriptSegment))
      (current : List TranscriptSegment) (cs : ℚ),
      (chunkLoop max segs chunks current cs).flatten =
        chunks.flatten ++ current ++ segs := by
  induction segs with
  | nil =>
      intro chunks current cs
      by_cases h : current = [] <;> simp [chunkLoop, h]
  | cons seg rest ih =>
      intro chunks current cs
      by_cases h : current ≠ [] ∧ seg.end_ - cs > max
      · rw [chunkLoop, if_pos h, ih]
        simp
      · rw [chunkLoop, if_neg h, ih]
        simp

lemma chunkLoop_spec (max : ℚ) (segs : List TranscriptSegment) :
    ∀ (chunks : List (List TranscriptSegment))
      (current : List TranscriptSegment) (cs : ℚ),
      (current ≠ [] → cs = current.headI.start) →
      (current = [] → ∀ s, segs.head? = some s → cs = s.start) →
      chunkOk max current →
      (∀ c ∈ chunks, c ≠ [] ∧ chunkOk max c) →
      List.Chain' (chunkBoundary max) chunks →
      (current = [] → chunks = []) →
      (∀ c, chunks.getLast? = some c → current ≠ [] →
        chunkBoundary max c current) →
      (∀ c ∈ chunkLoop max segs chunks current cs, c ≠ [] ∧ chunkOk max c) ∧
        List.Chain' (chunkBoundary max) (chunkLoop max segs chunks current cs) := by
  induction segs with
  | nil =>
      intro chunks current cs hcs _hcs0 hcur hchunks hchain _hempty hlink
      by_cases h : current = []
      · rw [chunkLoop, if_pos h]
        exact ⟨hchunks, hchain⟩
      · rw [chunkLoop, if_neg h]
        refine ⟨?_, ?_⟩
        · intro c hc
          rcases List.mem_append.1 hc with h1 | h2
          · exact hchunks c h1
          · rw [List.mem_singleton.1 h2]
            exact ⟨h, hcur⟩
        · refine List.chain'_append.2 ⟨hchain, List.chain'_singleton _, ?_⟩
          intro x hx y hy
          rw [show y = current from (by simpa using hy : current = y).symm]
          exact hlink x hx h
  | cons seg rest ih =>
      intro chunks current cs hcs hcs0 hcur hchunks hchain hempty hlink
      by_cases h : current ≠ [] ∧ seg.end_ - cs > max
      · rw [chunkLoop, if_pos h]
        apply ih
        · intro _
          simp [List.headI]
        · intro habs
          simp at habs
        · intro s hs
          simp at hs
        · intro c hc
          rcases List.mem_append.1 hc with h1 | h2
          · exact hchunks c h1
          · rw [List.mem_singleton.1 h2]
            exact ⟨h.1, hcur⟩
        · refine List.chain'_append.2 ⟨hchain, List.chain'_singleton _, ?_⟩
          intro x hx y hy
          rw [show y = current from (by simpa using hy : current = y).symm]
          exact hlink x hx h.1
        · intro habs
          simp at habs
        · intro c hc _
          have hc' : c = current := (by simpa using hc : current = c).symm
          rw [hc']
          show ([seg].headI.end_ - current.headI.start > max)
          rw [show [seg].headI = seg from rfl, ← hcs h.1]
          exact h.2
      · rw [chunkLoop, if_neg h]
        apply ih
        · intro _
          cases current with
          | nil =>
              rw [show (([] : List TranscriptSegment) ++ [seg]).headI = seg
                from rfl]
              exact hcs0 rfl seg (by simp)
          | cons a t =>
              rw [show ((a :: t) ++ [seg]).headI = a from rfl]
              exact hcs (by simp)
        · intro habs
          simp at habs
        · cases current with
          | nil =>
              intro s hs
              simp at hs
          | cons a t =>
              intro s hs
              rw [show ((a :: t) ++ [seg]).headI = a from rfl]
              rw [show ((a :: t) ++ [seg]).tail = t ++ [seg] from rfl] at hs
              rcases List.mem_append.1 hs with h1 | h2
              · have := hcur s (by simpa using h1)
                simpa [List.headI] using this
              · rw [List.mem_singleton.1 h2]
                have hle : ¬ seg.end_ - cs > max := by
                  intro hgt
                  exact h ⟨by simp, hgt⟩
                have hcsa : cs = a.start := by
                  simpa [List.headI] using hcs (by simp)
                rw [← hcsa]
                exact not_lt.1 hle
        · exact hchunks
        · exact hchain
        · intro habs
          simp at habs
        · intro c hc _
          cases current with
          | nil =>
              rw [hempty rfl] at hc
              simp at hc
          | cons a t =>
              have := hlink c hc (by simp)
              show (((a :: t) ++ [seg]).headI.end_ - c.headI.start > max)
              rw [show ((a :: t) ++ [seg]).headI = a from rfl]
              simpa [chunkBoundary, List.headI] using this

/-- C3: for every segment list and threshold, `chunk_segments_by_minutes`
partitions the input into non-empty runs whose in-order concatenation
reconstructs the original list exactly; within a run every segment after
the first ends within `minutes * 60` seconds of the run's first
segment's start (so every run of two or more segments satisfies the
threshold bound, while a single oversized segment still forms its own
run); and consecutive runs are separated exactly because the second
run's opening segment would have exceeded the bound, so a run is closed
exactly when adding the next segment would make `last_segment.end` minus
the run's first segment's `start` exceed the threshold while the run is
non-empty. -/
theorem chunking_partition_spec (segments : List TranscriptSegment)
    (minutes : ℤ) :
    (chunk_segments_by_minutes segments minutes).flatten = segments ∧
    (∀ c ∈ chunk_segments_by_minutes segments minutes,
      c ≠ [] ∧ chunkOk ((minutes * 60 : ℤ) : ℚ) c) ∧
    List.Chain' (chunkBoundary ((minutes * 60 : ℤ) : ℚ))
      (chunk_segments_by_minutes segments minutes) := by
  cases segments with
  | nil =>
      refine ⟨by simp [chunk_segments_by_minutes], ?_, ?_⟩
      · intro c hc
        simp [chunk_segments_by_minutes] at hc
      · simp [chunk_segments_by_minutes]
  | cons s rest =>
      have hform : chunk_segments_by_minutes (s :: rest) minutes =
          chunkLoop ((minutes * 60 : ℤ) : ℚ) (s :: rest) [] [] s.start := rfl
      refine ⟨?_, ?_⟩
      · rw [hform, chunkLoop_join]
        simp
      · rw [hform]
        apply chunkLoop_spec
        · intro habs
          simp at habs
        · intro _ t ht
          have : t = s := by simpa using ht.symm
          rw [this]
        · intro x hx
          simp at hx
        · intro c hc
          simp at hc
        · exact List.chain'_nil
        · intro _
          rfl
        · intro c hc
          simp at hc

/-- C3 witness: the two-segment list `(0,100), (101,400)` at the default
10-minute threshold forms a single run, and the theorem yields the
threshold bound for its second segment. -/
theorem chunking_partition_spec_witness :
    chunkOk (((10 : ℤ) * 60 : ℤ) : ℚ)
      [⟨0, 100, "part1"⟩, ⟨101, 400, "part2"⟩] :=
  ((chunking_partition_spec [⟨0, 100, "part1"⟩, ⟨101, 400, "part2"⟩] 10).2.1
    [⟨0, 100, "part1"⟩, ⟨101, 400, "part2"⟩]
    (by norm_num [chunk_segments_by_minutes, chunkLoop]; decide)).2

/-- C2: on segments `(0,100,"part1"), (101,400,"part2"), (800,900,"part3")`
with a 5-minute threshold the code produces THREE single-segment chunks,
because already the second segment fails `segment.end - chunk_start ≤ 300`
(400 − 0 > 300); the repository's own test `test_chunk_by_minutes`
asserts 2 chunks of sizes 2 and 1, so the code contradicts its test. -/
theorem chunking_example_three_chunks :
    chunk_segments_by_minutes
      [⟨0, 100, "part1"⟩, ⟨101, 400, "part2"⟩, ⟨800, 900, "part3"⟩] 5 =
      [[⟨0, 100, "part1"⟩], [⟨101, 400, "part2"⟩], [⟨800, 900, "part3"⟩]] := by
  norm_num [chunk_segments_by_minutes, chunkLoop]

/-- C8: `_format_srt_ts` renders 3661.25 s as `01:01:01,250`; every
negative input clamps to `00:00:00,000`; and millisecond precision
truncates toward zero — the output at `q ≥ 0` equals the output at `q`
rounded down to a whole number of milliseconds. -/
theorem format_srt_ts_spec :
    _format_srt_ts ((3661.25 : ℚ)) = "01:01:01,250" ∧
    (∀ q : ℚ, q < 0 → _format_srt_ts q = "00:00:00,000") ∧
    (∀ q : ℚ, 0 ≤ q →
      _format_srt_ts q = _format_srt_ts ((⌊q * 1000⌋ : ℚ) / 1000)) := by
  refine ⟨?_, ?_, ?_⟩
  · have h1 : ¬ ((3661.25 : ℚ) < 0) := by norm_num
    have h2 : ⌊(3661.25 : ℚ) * 1000⌋ = 3661250 := by norm_num
    simp only [_format_srt_ts, if_neg h1, h2]
    decide
  · intro q hq
    simp only [_format_srt_ts, if_pos hq]
    norm_num
    decide
  · intro q hq
    have h1 : ¬ q < 0 := not_lt.2 hq
    have h0 : (0:ℤ) ≤ ⌊q * 1000⌋ := Int.floor_nonneg.2 (by positivity)
    have h2 : ¬ ((⌊q * 1000⌋ : ℚ) / 1000) < 0 := by
      refine not_lt.2 (div_nonneg ?_ (by norm_num))
      exact_mod_cast h0
    have h3 : ⌊((⌊q * 1000⌋ : ℚ) / 1000) * 1000⌋ = ⌊q * 1000⌋ := by
      rw [div_mul_cancel₀]
      · exact Int.floor_intCast _
      · norm_num
    simp only [_format_srt_ts, if_neg h1, if_neg h2, h3]

/-- C8 witness: the clamping and truncation clauses applied at −5 and at
0.0019 s (1.9 ms, which renders as its floor, 1 ms). -/
theorem format_srt_ts_spec_witness :
    _format_srt_ts ((-5 : ℚ)) = "00:00:00,000" ∧
    _format_srt_ts ((0.0019 : ℚ)) =
      _format_srt_ts ((⌊(0.0019 : ℚ) * 1000⌋ : ℚ) / 1000) :=
  ⟨format_srt_ts_spec.2.1 (-5) (by norm_num),
   format_srt_ts_spec.2.2 (0.0019 : ℚ) (by norm_num)⟩

lemma srtLines_eq (segs : List TranscriptSegment) : ∀ k : ℕ,
    srtLines segs k =
      (((List.enumFrom k segs).filter
          (fun p => pyStrip p.2.text ≠ "")).map
        (fun p => [toString p.1,
          _format_srt_ts p.2.start ++ " --> " ++ _format_srt_ts p.2.end_,
          pyStrip p.2.text, ""])).flatten := by
  induction segs with
  | nil =>
      intro k
      simp [srtLines, List.enumFrom]
  | cons seg rest ih =>
      intro k
      rw [srtLines]
      by_cases h : pyStrip seg.text = ""
      · simp [h, ih, List.enumFrom]
      · simp [h, ih, List.enumFrom]

/-- C5 (amended): `build_srt` emits, in original order, one block per
segment whose text is non-empty after stripping; each block is numbered
by that segment's 1-based position in the ORIGINAL list (the enumeration
index), so a skipped blank segment still consumes an index number and
the surviving numbers need not be contiguous. -/
theorem build_srt_blocks (segs : List TranscriptSegment) (h : segs ≠ []) :
    build_srt segs =
      pyStrip (String.intercalate "\n"
        ((((List.enumFrom 1 segs).filter
            (fun p => pyStrip p.2.text ≠ "")).map
          (fun p => [toString p.1,
            _format_srt_ts p.2.start ++ " --> " ++ _format_srt_ts p.2.end_,
            pyStrip p.2.text, ""])).flatten)) ++ "\n" := by
  rw [build_srt, if_neg h, srtLines_eq]

/-- C5 witness: the amended block characterization evaluated on a
single-segment list. -/
theorem build_srt_blocks_witness :
    build_srt [⟨0, 1, "a"⟩] =
      pyStrip (String.intercalate "\n"
        ((((List.enumFrom 1 [(⟨0, 1, "a"⟩ : TranscriptSegment)]).filter
            (fun p => pyStrip p.2.text ≠ "")).map
          (fun p => [toString p.1,
            _format_srt_ts p.2.start ++ " --> " ++ _format_srt_ts p.2.end_,
            pyStrip p.2.text, ""])).flatten)) ++ "\n" :=
  build_srt_blocks [⟨0, 1, "a"⟩] (by decide)

/-- C5 counterexample: on two real segments with a blank segment between
them the emitted blocks are numbered 1 and 3 — the skipped segment DOES
consume an index number — so the output differs from the contiguous
1-and-2 numbering the claim asserts. -/
theorem build_srt_numbering_counterexample :
    build_srt [⟨0, 1, "a"⟩, ⟨1, 2, " "⟩, ⟨2, 3, "b"⟩] =
      "1\n00:00:00,000 --> 00:00:01,000\na\n\n3\n00:00:02,000 --> 00:00:03,000\nb\n" ∧
    build_srt [⟨0, 1, "a"⟩, ⟨1, 2, " "⟩, ⟨2, 3, "b"⟩] ≠
      "1\n00:00:00,000 --> 00:00:01,000\na\n\n2\n00:00:02,000 --> 00:00:03,000\nb\n" := by
  have e0 : _format_srt_ts ((0 : ℚ)) = "00:00:00,000" := by
    have h1 : ¬ ((0 : ℚ) < 0) := by norm_num
    have h2 : ⌊(0 : ℚ) * 1000⌋ = 0 := by norm_num
    simp only [_format_srt_ts, if_neg h1, h2]
    decide
  have e1 : _format_srt_ts ((1 : ℚ)) = "00:00:01,000" := by
    have h1 : ¬ ((1 : ℚ) < 0) := by norm_num
    have h2 : ⌊(1 : ℚ) * 1000⌋ = 1000 := by norm_num
    simp only [_format_srt_ts, if_neg h1, h2]
    decide
  have e2 : _format_srt_ts ((2 : ℚ)) = "00:00:02,000" := by
    have h1 : ¬ ((2 : ℚ) < 0) := by norm_num
    have h2 : ⌊(2 : ℚ) * 1000⌋ = 2000 := by norm_num
    simp only [_format_srt_ts, if_neg h1, h2]
    decide
  have e3 : _format_srt_ts ((3 : ℚ)) = "00:00:03,000" := by
    have h1 : ¬ ((3 : ℚ) < 0) := by norm_num
    have h2 : ⌊(3 : ℚ) * 1000⌋ = 3000 := by norm_num
    simp only [_format_srt_ts, if_neg h1, h2]
    decide
  constructor
  · rw [build_srt, if_neg (by decide), srtLines, srtLines, srtLines, srtLines]
    simp only [e0, e1, e2, e3]
    decide
  · rw [build_srt, if_neg (by decide), srtLines, srtLines, srtLines, srtLines]
    simp only [e0, e1, e2, e3]
    decide

lemma srtLines_all_blank : ∀ (segs : List TranscriptSegment) (k : ℕ),
    (∀ s ∈ segs, pyStrip s.text = "") → srtLines segs k = [] := by
  intro segs
  induction segs with
  | nil =>
      intro k _
      rfl
  | cons seg rest ih =>
      intro k h
      rw [srtLines]
      simp only [h seg (by simp), if_pos rfl]
      exact ih (k + 1) (fun s hs => h s (by simp [hs]))

/-- C10: `build_srt` returns the empty string on the empty list and only
there; a non-empty list all of whose segments have blank text yields the
one-character string `"\n"` (the final `+ "\n"` survives the strip of an
empty joined body). -/
theorem build_srt_blank_lists :
    build_srt [] = "" ∧
    (∀ segs : List TranscriptSegment, segs ≠ [] →
      (∀ s ∈ segs, pyStrip s.text = "") → build_srt segs = "\n") ∧
    (∀ segs : List TranscriptSegment, segs ≠ [] → build_srt segs ≠ "") := by
  refine ⟨rfl, ?_, ?_⟩
  · intro segs hne hblank
    rw [build_srt, if_neg hne, srtLines_all_blank segs 1 hblank]
    rfl
  · intro segs hne habs
    rw [build_srt, if_neg hne] at habs
    have h' := congrArg String.length habs
    rw [String.length_append] at h'
    have h2 : ("\n" : String).length = 1 := rfl
    have h3 : ("" : String).length = 0 := rfl
    rw [h2, h3] at h'
    omega

/-- C10 witness: a single blank-text segment yields `"\n"`. -/
theorem build_srt_blank_lists_witness :
    build_srt [⟨0, 1, " "⟩] = "\n" :=
  build_srt_blank_lists.2.1 [⟨0, 1, " "⟩] (by decide)
    (by intro s hs; rw [show s = ⟨0, 1, " "⟩ by simpa using hs]; decide)

/-- The row produced by the update branch of `set_status`. -/
def updRow (task : TaskRow) (status : String) (error : Option String)
    (language : Option String) (duration_sec : Option ℤ) : TaskRow :=
  { task with
    status := status
    error := match error with
      | some e => some e
      | none => task.error
    language := match language with
      | some l => some l
      | none => task.language
    duration_sec := match duration_sec with
      | some d => some d
      | none => task.duration_sec }

lemma set_status_apply (store : Store) (task_id : ℤ) (task : TaskRow)
    (status : String) (e l : Option String) (d : Option ℤ)
    (hget : store task_id = some task)
    (hcond : ¬ (task.status ∈ TERMINAL_STATUSES ∧
      status ∉ TERMINAL_STATUSES)) :
    set_status store task_id status e l d =
      (some (updRow task status e l d),
       fun i => if i = task_id then some (updRow task status e l d)
         else store i) := by
  rw [set_status, hget]
  simp only [if_neg hcond]
  rfl

lemma set_status_noop (store : Store) (task_id : ℤ) (task : TaskRow)
    (status : String) (e l : Option String) (d : Option ℤ)
    (hget : store task_id = some task)
    (hterm : task.status ∈ TERMINAL_STATUSES)
    (hst : status ∉ TERMINAL_STATUSES) :
    set_status store task_id status e l d = (some task, store) := by
  rw [set_status, hget]
  simp only [if_pos (And.intro hterm hst)]

/-- C1 (amended): a terminal task is returned unchanged — same status,
same error text, store untouched — for every requested NON-terminal
status; but when the requested status is itself terminal the guard does
not fire and the transition IS applied, overwriting the status and any
supplied optional fields. -/
theorem set_status_terminal_guard (store : Store) (task_id : ℤ)
    (task : TaskRow) (status : String) (e l : Option String)
    (d : Option ℤ) (hget : store task_id = some task)
    (hterm : task.status ∈ TERMINAL_STATUSES) :
    (status ∉ TERMINAL_STATUSES →
      set_status store task_id status e l d = (some task, store)) ∧
    (status ∈ TERMINAL_STATUSES →
      (set_status store task_id status e l d).1 =
        some (updRow task status e l d)) := by
  constructor
  · intro hst
    exact set_status_noop store task_id task status e l d hget hterm hst
  · intro hst
    rw [set_status_apply store task_id task status e l d hget
      (fun hc => hc.2 hst)]

/-- C1 witness: both clauses at a concrete completed task — a
`downloading` request is a no-op, a `failed` request overwrites. -/
theorem set_status_terminal_guard_witness :
    set_status
      (fun i => if i = 1 then
        some ⟨1, 5, "u", "completed", some "boom", none, none⟩ else none)
      1 "downloading" none none none =
      (some ⟨1, 5, "u", "completed", some "boom", none, none⟩,
       fun i => if i = 1 then
        some ⟨1, 5, "u", "completed", some "boom", none, none⟩ else none) ∧
    (set_status
      (fun i => if i = 1 then
        some ⟨1, 5, "u", "completed", some "boom", none, none⟩ else none)
      1 "failed" (some "late") none none).1 =
      some (updRow ⟨1, 5, "u", "completed", some "boom", none, none⟩
        "failed" (some "late") none none) :=
  ⟨(set_status_terminal_guard _ 1 _ "downloading" none none none
      (by decide) (by decide)).1 (by decide),
   (set_status_terminal_guard _ 1 _ "failed" (some "late") none none
      (by decide) (by decide)).2 (by decide)⟩

/-- C1 counterexample: a task already `completed` with error `"boom"`,
given the terminal request `failed` with a new error text, is NOT
returned unchanged — the store applies the terminal-to-terminal
transition, rewriting both status and error. -/
theorem set_status_terminal_overwrite_counterexample :
    (set_status
      (fun i => if i = 1 then
        some ⟨1, 5, "u", "completed", some "boom", none, none⟩ else none)
      1 "failed" (some "late") none none).1 =
      some ⟨1, 5, "u", "failed", some "late", none, none⟩ ∧
    (set_status
      (fun i => if i = 1 then
        some ⟨1, 5, "u", "completed", some "boom", none, none⟩ else none)
      1 "failed" (some "late") none none).1 ≠
      some ⟨1, 5, "u", "completed", some "boom", none, none⟩ := by
  constructor
  · decide
  · decide

/-- C9: on an existing non-terminal task, `set_status` leaves each of
`error`, `language`, `duration_sec` unchanged when the corresponding
argument is `None`, overwrites it exactly when a value is supplied, and
therefore can never reset a stored error text back to `NULL` — the
returned row's error is `NULL` iff no error argument was passed and the
stored error was already `NULL` (clearing is only possible via the empty
string). -/
theorem set_status_field_updates (store : Store) (task_id : ℤ)
    (task : TaskRow) (status : String) (e l : Option String)
    (d : Option ℤ) (hget : store task_id = some task)
    (hterm : task.status ∉ TERMINAL_STATUSES) :
    ∃ t, (set_status store task_id status e l d).1 = some t ∧
      t.status = status ∧
      (e = none → t.error = task.error) ∧
      (∀ v, e = some v → t.error = some v) ∧
      (l = none → t.language = task.language) ∧
      (∀ v, l = some v → t.language = some v) ∧
      (d = none → t.duration_sec = task.duration_sec) ∧
      (∀ v, d = some v → t.duration_sec = some v) ∧
      (t.error = none ↔ e = none ∧ task.error = none) := by
  refine ⟨updRow task status e l d, ?_, ?_, ?_, ?_, ?_, ?_, ?_, ?_, ?_⟩
  · rw [set_status_apply store task_id task status e l d hget
      (fun hc => hterm hc.1)]
  · rfl
  · intro he
    simp [updRow, he]
  · intro v he
    simp [updRow, he]
  · intro hl
    simp [updRow, hl]
  · intro v hl
    simp [updRow, hl]
  · intro hd
    simp [updRow, hd]
  · intro v hd
    simp [updRow, hd]
  · cases e with
    | none => simp [updRow]
    | some v => simp [updRow]

/-- C9 witness: a `created` task with a stored error keeps error,
language and duration across a status-only transition, and the error is
non-`NULL` afterwards. -/
theorem set_status_field_updates_witness :
    ∃ t, (set_status
      (fun i => if i = 1 then
        some ⟨1, 5, "u", "created", some "old", some "en", some 7⟩ else none)
      1 "downloading" none none none).1 = some t ∧
      t.status = "downloading" ∧
      (none = (none : Option String) → t.error = some "old") ∧
      (∀ v, (none : Option String) = some v → t.error = some v) ∧
      (none = (none : Option String) → t.language = some "en") ∧
      (∀ v, (none : Option String) = some v → t.language = some v) ∧
      (none = (none : Option ℤ) → t.duration_sec = some 7) ∧
      (∀ v, (none : Option ℤ) = some v → t.duration_sec = some v) ∧
      (t.error = none ↔ none = (none : Option String) ∧
        (some "old" : Option String) = none) :=
  set_status_field_updates
    (fun i => if i = 1 then
      some ⟨1, 5, "u", "created", some "old", some "en", some 7⟩ else none)
    1 ⟨1, 5, "u", "created", some "old", some "en", some 7⟩
    "downloading" none none none (by decide) (by decide)

/-- C7: a transcript that is empty after stripping makes
`summarize_with_map_reduce` return the two fixed placeholder strings for
EVERY engine `ask` — the result does not depend on the engine, which is
therefore never invoked; and a non-blank transcript whose segment list
chunks to the empty list is processed through the single synthetic chunk
`[(0, 0, transcript)]`. -/
theorem summarize_degenerate_spec :
    (∀ (ask : String → String) (transcript : String)
      (segments : List TranscriptSegment), pyStrip transcript = "" →
      summarize_with_map_reduce ask transcript segments =
        ("No speech detected.", "No lecture outline available.")) ∧
    (∀ (ask : String → String) (transcript : String)
      (segments : List TranscriptSegment), pyStrip transcript ≠ "" →
      chunk_segments_by_minutes segments 10 = [] →
      summarize_with_map_reduce ask transcript segments =
        mapReducePhase ask [[⟨0, 0, transcript⟩]]) := by
  constructor
  · intro ask transcript segments h
    rw [summarize_with_map_reduce, if_pos h]
  · intro ask transcript segments h hc
    rw [summarize_with_map_reduce, if_neg h]
    simp only [hc, if_pos rfl, if_true]

/-- C7 witness: a whitespace-only transcript short-circuits under a
non-trivial engine, and the fallback clause at an empty segment list. -/
theorem summarize_degenerate_spec_witness :
    summarize_with_map_reduce (fun _ => "engine output") " " [⟨0, 1, "hi"⟩] =
      ("No speech detected.", "No lecture outline available.") ∧
    summarize_with_map_reduce (fun _ => "engine output") "talk" [] =
      mapReducePhase (fun _ => "engine output") [[⟨0, 0, "talk"⟩]] :=
  ⟨summarize_degenerate_spec.1 (fun _ => "engine output") " " [⟨0, 1, "hi"⟩]
      (by decide),
   summarize_degenerate_spec.2 (fun _ => "engine output") "talk" []
      (by decide) rfl⟩

/-- C4 counterexample: a non-skip payload through stage 4 is NOT a
superset of the input — `finalize_task` returns the fresh dictionary
`{"task_id", "status"}` and the input's `transcript_text` field is gone
from the output. -/
theorem finalize_drops_fields_counterexample :
    (finalize_task
      (fun k => if k = "task_id" then some (PVal.vint 1)
        else if k = "transcript_text" then some (PVal.vstr "t") else none)
      (fun _ => none) (fun _ => none)).toOption.map
        (fun x => x.1 "transcript_text") = some none ∧
    (fun k => if k = "task_id" then some (PVal.vint 1)
      else if k = "transcript_text" then some (PVal.vstr "t") else none)
      "transcript_text" = some (PVal.vstr "t") := by
  constructor
  · rfl
  · rfl

/-- C4 (amended): stages 2 and 3 forward a `skip` payload unchanged and
otherwise return a superset of their input — every key other than the
stage's own output keys keeps its value, and the stage's fields are
added (stage 2: `transcript_text`, `language`, `segments`; stage 3:
`summary`, `outline`).  Stage 4 does NOT: on a non-skip payload it
returns only `task_id` and `status`, discarding every other input field
(stage 1 receives a bare task id rather than a payload). -/
theorem stage_payload_superset_spec :
    (∀ (p : Payload) (store : Store) (t l : String)
      (s : List TranscriptSegment) (q : Payload) (st : Store),
      transcribe_audio_task p store t l s = .ok (q, st) →
      truthy (p "skip") = false →
      (∀ k, k ≠ "transcript_text" → k ≠ "language" → k ≠ "segments" →
        q k = p k) ∧
      q "transcript_text" = some (PVal.vstr t) ∧
      q "language" = some (PVal.vstr l) ∧
      q "segments" = some (PVal.vsegs s)) ∧
    (∀ (p : Payload) (store : Store) (t l : String)
      (s : List TranscriptSegment) (q : Payload) (st : Store),
      transcribe_audio_task p store t l s = .ok (q, st) →
      truthy (p "skip") = true → q = p) ∧
    (∀ (p : Payload) (store : Store) (ask : String → String)
      (q : Payload) (st : Store),
      summarize_transcript_task p store ask = .ok (q, st) →
      truthy (p "skip") = false →
      (∀ k, k ≠ "summary" → k ≠ "outline" → q k = p k) ∧
      (∃ v, q "summary" = some v) ∧ (∃ v, q "outline" = some v)) ∧
    (∀ (p : Payload) (store : Store) (ask : String → String)
      (q : Payload) (st : Store),
      summarize_transcript_task p store ask = .ok (q, st) →
      truthy (p "skip") = true → q = p) ∧
    (∀ (p : Payload) (store : Store) (rs : RStore) (q : Payload)
      (st : Store) (rs' : RStore),
      finalize_task p store rs = .ok (q, st, rs') →
      truthy (p "skip") = false →
      ∀ k, k ≠ "task_id" → k ≠ "status" → q k = none) ∧
    (∀ (p : Payload) (store : Store) (rs : RStore) (q : Payload)
      (st : Store) (rs' : RStore),
      finalize_task p store rs = .ok (q, st, rs') →
      truthy (p "skip") = true → q = p) := by
  refine ⟨?_, ?_, ?_, ?_, ?_, ?_⟩
  · intro p store t l s q st heq hskip
    rw [transcribe_audio_task] at heq
    cases hg : getTaskId p with
    | none =>
        rw [hg] at heq
        simp at heq
    | some id =>
        rw [hg] at heq
        simp only [hskip, Bool.false_eq_true, if_false] at heq
        have hq : q = pset (pset (pset p "transcript_text" (.vstr t))
            "language" (.vstr l)) "segments" (.vsegs s) := by
          have := (Except.ok.inj heq)
          exact (congrArg Prod.fst this).symm
        refine ⟨?_, ?_, ?_, ?_⟩
        · intro k hk1 hk2 hk3
          simp [hq, pset, hk1, hk2, hk3]
        · simp [hq, pset]
        · simp [hq, pset]
        · simp [hq, pset]
  · intro p store t l s q st heq hskip
    rw [transcribe_audio_task] at heq
    cases hg : getTaskId p with
    | none =>
        rw [hg] at heq
        simp at heq
    | some id =>
        rw [hg] at heq
        simp only [hskip, if_true] at heq
        exact (congrArg Prod.fst (Except.ok.inj heq)).symm
  · intro p store ask q st heq hskip
    rw [summarize_transcript_task] at heq
    cases hg : getTaskId p with
    | none =>
        rw [hg] at heq
        simp at heq
    | some id =>
        rw [hg] at heq
        simp only [hskip, Bool.false_eq_true, if_false] at heq
        have hq : q = pset (pset p "summary"
            (.vstr (summarize_with_map_reduce ask (getStr p "transcript_text")
              (getSegs p)).1)) "outline"
            (.vstr (summarize_with_map_reduce ask (getStr p "transcript_text")
              (getSegs p)).2) := by
          have := (Except.ok.inj heq)
          exact (congrArg Prod.fst this).symm
        refine ⟨?_, ?_, ?_⟩
        · intro k hk1 hk2
          simp [hq, pset, hk1, hk2]
        · exact ⟨PVal.vstr (summarize_with_map_reduce ask
            (getStr p "transcript_text") (getSegs p)).1, by simp [hq, pset]⟩
        · exact ⟨PVal.vstr (summarize_with_map_reduce ask
            (getStr p "transcript_text") (getSegs p)).2, by simp [hq, pset]⟩
  · intro p store ask q st heq hskip
    rw [summarize_transcript_task] at heq
    cases hg : getTaskId p with
    | none =>
        rw [hg] at heq
        simp at heq
    | some id =>
        rw [hg] at heq
        simp only [hskip, if_true] at heq
        exact (congrArg Prod.fst (Except.ok.inj heq)).symm
  · intro p store rs q st rs' heq hskip
    rw [finalize_task] at heq
    cases hg : getTaskId p with
    | none =>
        rw [hg] at heq
        simp at heq
    | some id =>
        rw [hg] at heq
        simp only [hskip, Bool.false_eq_true, if_false] at heq
        have hq : q = finalPayload id := by
          have := (Except.ok.inj heq)
          exact (congrArg Prod.fst this).symm
        intro k hk1 hk2
        simp [hq, finalPayload, hk1, hk2]
  · intro p store rs q st rs' heq hskip
    rw [finalize_task] at heq
    cases hg : getTaskId p with
    | none =>
        rw [hg] at heq
        simp at heq
    | some id =>
        rw [hg] at heq
        simp only [hskip, if_true] at heq
        exact (congrArg Prod.fst (Except.ok.inj heq)).symm

/-- C4 witness: stage 2 on a concrete non-skip payload keeps the
`source_path` field it does not write. -/
theorem stage_payload_superset_spec_witness :
    (pset (pset (pset
      (fun k => if k = "task_id" then some (PVal.vint 1)
        else if k = "source_path" then some (PVal.vstr "sp") else none)
      "transcript_text" (PVal.vstr "t")) "language" (PVal.vstr "en"))
      "segments" (PVal.vsegs [])) "source_path" = some (PVal.vstr "sp") :=
  ((stage_payload_superset_spec.1
    (fun k => if k = "task_id" then some (PVal.vint 1)
      else if k = "source_path" then some (PVal.vstr "sp") else none)
    (fun _ => none) "t" "en" []
    (pset (pset (pset
      (fun k => if k = "task_id" then some (PVal.vint 1)
        else if k = "source_path" then some (PVal.vstr "sp") else none)
      "transcript_text" (PVal.vstr "t")) "language" (PVal.vstr "en"))
      "segments" (PVal.vsegs []))
    ((set_status ((set_status (fun _ => none) 1 "transcribing" none none
      none).2) 1 "transcribed" none (some "en") none).2)
    rfl rfl).1 "source_path" (by decide) (by decide) (by decide)).trans rfl

/-- C6: when the fetched metadata resolves to a duration above
`max_video_minutes * 60`, `download_audio` raises the too-long rejection
regardless of the download attempts (which are never made), and stage 1
catches it rather than re-raising — so Celery's
`autoretry_for=(RuntimeError,)` never retries — transitions the task to
`failed` with an error text naming the configured limit, notifies the
requester with a rejection message, and returns the skip payload; the
skip payload then passes through stages 2–4 unchanged for every possible
engine output, so the speech and text engines are never invoked and the
task ends in `failed`. -/
theorem download_reject_too_long_spec (store : Store) (task_id : ℤ)
    (task : TaskRow) (info_duration : Option ℤ) (max_video_minutes : ℤ)
    (attempts : Except StageError String)
    (hget : store task_id = some task)
    (hnc : ¬ task.status = "completed")
    (hdur : info_duration.getD 0 > max_video_minutes * 60) :
    download_audio info_duration max_video_minutes attempts =
      .error (.videoTooLong ("Video is too long (" ++
        toString (info_duration.getD 0 / 60) ++
        " min). Maximum allowed is " ++ toString max_video_minutes ++
        " min.")) ∧
    (download_audio_task store task_id info_duration max_video_minutes
      attempts).1 = .ok (skipPayload task_id) ∧
    (download_audio_task store task_id info_duration max_video_minutes
      attempts).2.1 task_id =
      some { task with
        status := "failed"
        error := some ("Video is too long (" ++
          toString (info_duration.getD 0 / 60) ++
          " min). Maximum allowed is " ++ toString max_video_minutes ++
          " min.") } ∧
    (download_audio_task store task_id info_duration max_video_minutes
      attempts).2.2 =
      [(task.user_id, "Task " ++ toString task_id ++ " rejected: " ++
        ("Video is too long (" ++ toString (info_duration.getD 0 / 60) ++
         " min). Maximum allowed is " ++ toString max_video_minutes ++
         " min."))] ∧
    (∀ (st : Store) (t l : String) (s : List TranscriptSegment),
      transcribe_audio_task (skipPayload task_id) st t l s =
        .ok (skipPayload task_id, st)) ∧
    (∀ (st : Store) (ask : String → String),
      summarize_transcript_task (skipPayload task_id) st ask =
        .ok (skipPayload task_id, st)) ∧
    (∀ (st : Store) (rs : RStore),
      finalize_task (skipPayload task_id) st rs =
        .ok (skipPayload task_id, st, rs)) := by
  have hdown_notin : ("downloading" : String) ∉ TERMINAL_STATUSES := by
    decide
  have hfailed_in : ("failed" : String) ∈ TERMINAL_STATUSES := by decide
  have hdl : download_audio info_duration max_video_minutes attempts =
      .error (.videoTooLong ("Video is too long (" ++
        toString (info_duration.getD 0 / 60) ++
        " min). Maximum allowed is " ++ toString max_video_minutes ++
        " min.")) := by
    simp only [download_audio]
    rw [if_pos hdur]
  have hskip2 : ∀ (st : Store) (t l : String) (s : List TranscriptSegment),
      transcribe_audio_task (skipPayload task_id) st t l s =
        .ok (skipPayload task_id, st) := by
    intro st t l s
    rfl
  have hskip3 : ∀ (st : Store) (ask : String → String),
      summarize_transcript_task (skipPayload task_id) st ask =
        .ok (skipPayload task_id, st) := by
    intro st ask
    rfl
  have hskip4 : ∀ (st : Store) (rs : RStore),
      finalize_task (skipPayload task_id) st rs =
        .ok (skipPayload task_id, st, rs) := by
    intro st rs
    rfl
  by_cases hterm : task.status ∈ TERMINAL_STATUSES
  · have h1 := set_status_noop store task_id task "downloading" none none
      none hget hterm hdown_notin
    have h2 := set_status_apply store task_id task "failed"
      (some ("Video is too long (" ++ toString (info_duration.getD 0 / 60) ++
        " min). Maximum allowed is " ++ toString max_video_minutes ++
        " min.")) none none hget (fun hc => hc.2 hfailed_in)
    refine ⟨hdl, ?_, ?_, ?_, hskip2, hskip3, hskip4⟩
    · simp only [download_audio_task, hget, if_neg hnc, h1, hget, hdl,
        StageError.isRejection, StageError.msg, if_true, h2]
    · simp only [download_audio_task, hget, if_neg hnc, h1, hget, hdl,
        StageError.isRejection, StageError.msg, if_true, h2]
      rfl
    · simp only [download_audio_task, hget, if_neg hnc, h1, hget, hdl,
        StageError.isRejection, StageError.msg, if_true, h2]
      rfl
  · have h1 := set_status_apply store task_id task "downloading" none none
      none hget (fun hc => hterm hc.1)
    have hget1 : ((fun i => if i = task_id then
        some (updRow task "downloading" none none none) else store i) :
          Store) task_id = some (updRow task "downloading" none none none) :=
      by simp
    have h2 := set_status_apply
      (fun i => if i = task_id then
        some (updRow task "downloading" none none none) else store i)
      task_id (updRow task "downloading" none none none) "failed"
      (some ("Video is too long (" ++ toString (info_duration.getD 0 / 60) ++
        " min). Maximum allowed is " ++ toString max_video_minutes ++
        " min.")) none none hget1 (fun hc => hc.2 hfailed_in)
    refine ⟨hdl, ?_, ?_, ?_, hskip2, hskip3, hskip4⟩
    · simp only [download_audio_task, hget, if_neg hnc, h1, hget1, hdl,
        StageError.isRejection, StageError.msg, if_true, h2]
    · simp only [download_audio_task, hget, if_neg hnc, h1, hget1, hdl,
        StageError.isRejection, StageError.msg, if_true, h2]
      rfl
    · simp only [download_audio_task, hget, if_neg hnc, h1, hget1, hdl,
        StageError.isRejection, StageError.msg, if_true, h2]
      rfl

/-- C6 witness: a 3700-second video against a 60-minute limit, with one
`created` task in the store. -/
theorem download_reject_too_long_spec_witness :
    (download_audio_task
      (fun i => if i = 1 then
        some ⟨1, 5, "u", "created", none, none, none⟩ else none)
      1 (some 3700) 60 (Except.ok "path")).1 = .ok (skipPayload 1) :=
  (download_reject_too_long_spec
    (fun i => if i = 1 then
      some ⟨1, 5, "u", "created", none, none, none⟩ else none)
    1 ⟨1, 5, "u", "created", none, none, none⟩ (some 3700) 60
    (Except.ok "path") (by decide) (by decide) (by decide)).2.1
